import Mathlib

/-! Verification development for finance_data_extract.py.

The program normalizes three raw financial-statement tables into a record of
named numeric series (`FinancialData`), derives 25 financial ratios from that
record, and assembles them into a four-section report.  This file gives a
shallow embedding of that layer and proves properties about it.

Modelling conventions:
* A pandas numeric cell is a `Val`: finite floats are exact rationals, NaN is
  the explicit undefined marker (the Python `None` null behaves the same way
  inside pandas arithmetic and is therefore also modelled as `Val.nan`), and
  the two signed infinities arise from numpy division by zero.
* Every series in the program shares one positional index (pandas integer
  labels 1..N), so aligned pandas series arithmetic is positional `zipWith`.
* `pd.to_numeric` with the default `errors="raise"` setting and the `df[col]`
  column lookups of `FinancialData.__init__` are modelled in the `Except`
  monad: a missing column is a `KeyError`, an unparsable cell a `ValueError`.
-/

/-- Cell value of a pandas numeric series: NaN (undefined marker), the two
infinities, or a finite number modelled as an exact rational. -/
inductive Val where
  | nan : Val
  | pinf : Val
  | ninf : Val
  | num : ℚ → Val
deriving DecidableEq

namespace Val

/-- IEEE-style addition on cell values (numpy semantics): NaN propagates,
opposite infinities give NaN. -/
def add : Val → Val → Val
  | nan, _ => nan
  | pinf, nan => nan
  | pinf, pinf => pinf
  | pinf, ninf => nan
  | pinf, num _ => pinf
  | ninf, nan => nan
  | ninf, pinf => nan
  | ninf, ninf => ninf
  | ninf, num _ => ninf
  | num _, nan => nan
  | num _, pinf => pinf
  | num _, ninf => ninf
  | num a, num b => num (a + b)

/-- IEEE-style subtraction on cell values (numpy semantics). -/
def sub : Val → Val → Val
  | nan, _ => nan
  | pinf, nan => nan
  | pinf, pinf => nan
  | pinf, ninf => pinf
  | pinf, num _ => pinf
  | ninf, nan => nan
  | ninf, pinf => ninf
  | ninf, ninf => nan
  | ninf, num _ => ninf
  | num _, nan => nan
  | num _, pinf => ninf
  | num _, ninf => pinf
  | num a, num b => num (a - b)

/-- Multiplication by a rational scalar (numpy semantics; a zero scalar times
an infinity is NaN). -/
def smul (c : ℚ) : Val → Val
  | nan => nan
  | pinf => if 0 < c then pinf else if c < 0 then ninf else nan
  | ninf => if 0 < c then ninf else if c < 0 then pinf else nan
  | num a => num (c * a)

/-- Absolute value (np.abs semantics). -/
def abs : Val → Val
  | nan => nan
  | pinf => pinf
  | ninf => pinf
  | num a => num |a|

/-- IEEE-style division on cell values (numpy true-divide semantics): NaN
propagates; a finite nonzero numerator over zero is a signed infinity; 0/0 is
NaN; a finite numerator over an infinity is 0. -/
def div : Val → Val → Val
  | nan, _ => nan
  | pinf, nan => nan
  | pinf, pinf => nan
  | pinf, ninf => nan
  | pinf, num b => if b < 0 then ninf else pinf
  | ninf, nan => nan
  | ninf, pinf => nan
  | ninf, ninf => nan
  | ninf, num b => if b < 0 then pinf else ninf
  | num _, nan => nan
  | num _, pinf => num 0
  | num _, ninf => num 0
  | num a, num b =>
      if b = 0 then (if a = 0 then nan else if 0 < a then pinf else ninf)
      else num (a / b)

end Val

/-- Positional arithmetic on two aligned pandas series. -/
def seriesAdd (a b : List Val) : List Val := List.zipWith Val.add a b

/-- Positional subtraction on two aligned pandas series. -/
def seriesSub (a b : List Val) : List Val := List.zipWith Val.sub a b

/-- Positional division on two aligned pandas series. -/
def seriesDiv (a b : List Val) : List Val := List.zipWith Val.div a b

/-- Scalar multiplication of a series (e.g. `1000*currAssets`). -/
def smulSeries (c : ℚ) (a : List Val) : List Val := a.map (Val.smul c)

/-- `np.abs` applied elementwise to a series. -/
def absSeries (a : List Val) : List Val := a.map Val.abs

/-- The canonical financial record built by `FinancialData.__init__`:
seventeen named series, all positionally aligned to the shared period index,
most-recent period first. -/
structure FinancialData where
  cce : List Val
  currLia : List Val
  currAssets : List Val
  shortTermInv : List Val
  nr : List Val
  inventory : List Val
  totalAssets : List Val
  totalLia : List Val
  totalSE : List Val
  sales : List Val
  gp : List Val
  noil : List Val
  ie : List Val
  ebit : List Val
  cor : List Val
  ni : List Val
  ocf : List Val
deriving DecidableEq

/-- Getter mirroring `FinancialData.getCashAndCashEquivalents`. -/
def FinancialData.getCashAndCashEquivalents (fd : FinancialData) : List Val := fd.cce

/-- Getter mirroring `FinancialData.getCurrentLiabilities`. -/
def FinancialData.getCurrentLiabilities (fd : FinancialData) : List Val := fd.currLia

/-- Getter mirroring `FinancialData.getCurrentAssets`. -/
def FinancialData.getCurrentAssets (fd : FinancialData) : List Val := fd.currAssets

/-- Getter mirroring `FinancialData.getShortTermInvestments`. -/
def FinancialData.getShortTermInvestments (fd : FinancialData) : List Val := fd.shortTermInv

/-- Getter mirroring `FinancialData.getNetReceivables`. -/
def FinancialData.getNetReceivables (fd : FinancialData) : List Val := fd.nr

/-- Getter mirroring `FinancialData.getInventory`. -/
def FinancialData.getInventory (fd : FinancialData) : List Val := fd.inventory

/-- Getter mirroring `FinancialData.getTotalAssets`. -/
def FinancialData.getTotalAssets (fd : FinancialData) : List Val := fd.totalAssets

/-- Getter mirroring `FinancialData.getTotalLiabilities`. -/
def FinancialData.getTotalLiabilities (fd : FinancialData) : List Val := fd.totalLia

/-- Getter mirroring `FinancialData.getTotalStockholderEquity`. -/
def FinancialData.getTotalStockholderEquity (fd : FinancialData) : List Val := fd.totalSE

/-- Alias mirroring `FinancialData.getTotalShareholderEquity`. -/
def FinancialData.getTotalShareholderEquity (fd : FinancialData) : List Val :=
  fd.getTotalStockholderEquity

/-- Getter mirroring `FinancialData.getSales`. -/
def FinancialData.getSales (fd : FinancialData) : List Val := fd.sales

/-- Alias mirroring `FinancialData.getTotalRevenue`. -/
def FinancialData.getTotalRevenue (fd : FinancialData) : List Val := fd.getSales

/-- Getter mirroring `FinancialData.getGrossProfit`. -/
def FinancialData.getGrossProfit (fd : FinancialData) : List Val := fd.gp

/-- Getter mirroring `FinancialData.getOperatingIncomeOrLoss`. -/
def FinancialData.getOperatingIncomeOrLoss (fd : FinancialData) : List Val := fd.noil

/-- Alias mirroring `FinancialData.getNetOperatingIncomeOrLoss`. -/
def FinancialData.getNetOperatingIncomeOrLoss (fd : FinancialData) : List Val :=
  fd.getOperatingIncomeOrLoss

/-- Getter mirroring `FinancialData.getInterestExpense` (a negative value in
the source data, per the source comment). -/
def FinancialData.getInterestExpense (fd : FinancialData) : List Val := fd.ie

/-- Getter mirroring `FinancialData.getOperatingCashFlows`. -/
def FinancialData.getOperatingCashFlows (fd : FinancialData) : List Val := fd.ocf

/-- Getter mirroring `FinancialData.getEBIT`. -/
def FinancialData.getEBIT (fd : FinancialData) : List Val := fd.ebit

/-- Getter mirroring `FinancialData.getCostOfRevenue`. -/
def FinancialData.getCostOfRevenue (fd : FinancialData) : List Val := fd.cor

/-- Alias mirroring `FinancialData.getCOR`. -/
def FinancialData.getCOR (fd : FinancialData) : List Val := fd.getCostOfRevenue

/-- Getter mirroring `FinancialData.getNetIncome`. -/
def FinancialData.getNetIncome (fd : FinancialData) : List Val := fd.ni

/-- A record is valid for period count N when all seventeen series have
length N (they were all built against the same period index). -/
def FinancialData.valid (fd : FinancialData) (N : ℕ) : Prop :=
  fd.cce.length = N ∧ fd.currLia.length = N ∧ fd.currAssets.length = N ∧
  fd.shortTermInv.length = N ∧ fd.nr.length = N ∧ fd.inventory.length = N ∧
  fd.totalAssets.length = N ∧ fd.totalLia.length = N ∧ fd.totalSE.length = N ∧
  fd.sales.length = N ∧ fd.gp.length = N ∧ fd.noil.length = N ∧
  fd.ie.length = N ∧ fd.ebit.length = N ∧ fd.cor.length = N ∧
  fd.ni.length = N ∧ fd.ocf.length = N

instance (fd : FinancialData) (N : ℕ) : Decidable (fd.valid N) := by
  unfold FinancialData.valid
  infer_instance

-- Liquidity ratios

/-- `calculateCashRatio`: cash and cash equivalents / current liabilities. -/
def calculateCashRatio (fd : FinancialData) : List Val :=
  seriesDiv fd.getCashAndCashEquivalents fd.getCurrentLiabilities

/-- `calculateQuickRatio`: (cce + short-term investments + net receivables) /
current liabilities. -/
def calculateQuickRatio (fd : FinancialData) : List Val :=
  seriesDiv
    (seriesAdd (seriesAdd fd.getCashAndCashEquivalents fd.getShortTermInvestments)
      fd.getNetReceivables)
    fd.getCurrentLiabilities

/-- `calculateCurrentRatio`: current assets / current liabilities. -/
def calculateCurrentRatio (fd : FinancialData) : List Val :=
  seriesDiv fd.getCurrentAssets fd.getCurrentLiabilities

/-- `calculateWorkingCapital`: `1000*currAssets - 1000*currLia` (statement
figures are in thousands). -/
def calculateWorkingCapital (fd : FinancialData) : List Val :=
  seriesSub (smulSeries 1000 fd.getCurrentAssets) (smulSeries 1000 fd.getCurrentLiabilities)

/-- `calculateCashToWorkingCapitalRatio`: `1000*cce / wc` where `wc` is the
output of `calculateWorkingCapital` (unrounded). -/
def calculateCashToWorkingCapitalRatio (fd : FinancialData) : List Val :=
  seriesDiv (smulSeries 1000 fd.getCashAndCashEquivalents) (calculateWorkingCapital fd)

/-- `calculateInventoryToWorkingCapitalRatio`: `1000*inventory / wc`. -/
def calculateInventoryToWorkingCapitalRatio (fd : FinancialData) : List Val :=
  seriesDiv (smulSeries 1000 fd.getInventory) (calculateWorkingCapital fd)

/-- `salesToWorkingCapitalRatio`: `1000*sales / wc`. -/
def salesToWorkingCapitalRatio (fd : FinancialData) : List Val :=
  seriesDiv (smulSeries 1000 fd.getSales) (calculateWorkingCapital fd)

/-- `salesToCurrentAssetsRatio`: sales / current assets. -/
def salesToCurrentAssetsRatio (fd : FinancialData) : List Val :=
  seriesDiv fd.getSales fd.getCurrentAssets

-- Solvency ratios

/-- `calculateDebtRatio`: total liabilities / total assets. -/
def calculateDebtRatio (fd : FinancialData) : List Val :=
  seriesDiv fd.getTotalLiabilities fd.getTotalAssets

/-- `calculateEquityRatio`: total stockholder equity / total assets. -/
def calculateEquityRatio (fd : FinancialData) : List Val :=
  seriesDiv fd.getTotalStockholderEquity fd.getTotalAssets

/-- `calculateDebtToEquityRatio`: total liabilities / total equity. -/
def calculateDebtToEquityRatio (fd : FinancialData) : List Val :=
  seriesDiv fd.getTotalLiabilities fd.getTotalStockholderEquity

/-- `calculateDebtToIncomeRatio`: total liabilities / gross profit. -/
def calculateDebtToIncomeRatio (fd : FinancialData) : List Val :=
  seriesDiv fd.getTotalLiabilities fd.getGrossProfit

/-- `calculateDebtServiceCoverageRatio`: the source computes `noi/ie` with the
raw (negative) interest expense; it does not take an absolute value. -/
def calculateDebtServiceCoverageRatio (fd : FinancialData) : List Val :=
  seriesDiv fd.getOperatingIncomeOrLoss fd.getInterestExpense

/-- `calculateCashFlowToDebtRatio`: operating cash flow / total liabilities. -/
def calculateCashFlowToDebtRatio (fd : FinancialData) : List Val :=
  seriesDiv fd.getOperatingCashFlows fd.getTotalLiabilities

/-- `calculateWCToDebtRatio`: working capital / total liabilities. -/
def calculateWCToDebtRatio (fd : FinancialData) : List Val :=
  seriesDiv (calculateWorkingCapital fd) fd.getTotalLiabilities

/-- `calculateTimesInterestEarned`: `ebit / np.abs(ie)`. -/
def calculateTimesInterestEarned (fd : FinancialData) : List Val :=
  seriesDiv fd.getEBIT (absSeries fd.getInterestExpense)

-- Efficiency and profitability ratios, with their inlined averaging loops.
-- Each of the four functions below builds an array initialized to None and
-- overwrites positions 0..N-2 with 0.5*(v[i]+v[i+1]); position N-1 keeps the
-- None null (modelled as `Val.nan`).

/-- The averaging loop inlined in `calculateAssetTurnoverRatio`. -/
def avgAssetsLoop (totalAssets : List Val) : List Val :=
  (List.range totalAssets.length).map (fun index =>
    if index + 1 < totalAssets.length then
      Val.smul (1/2)
        (Val.add (totalAssets.getD index Val.nan) (totalAssets.getD (index + 1) Val.nan))
    else Val.nan)

/-- The averaging loop inlined in `calculateInventoryTurnoverRatio`. -/
def avgInventoryLoop (totalInventory : List Val) : List Val :=
  (List.range totalInventory.length).map (fun index =>
    if index + 1 < totalInventory.length then
      Val.smul (1/2)
        (Val.add (totalInventory.getD index Val.nan) (totalInventory.getD (index + 1) Val.nan))
    else Val.nan)

/-- The averaging loop inlined in `calculateAccountsReceivableTurnoverRatio`. -/
def avgReceivablesLoop (totalAR : List Val) : List Val :=
  (List.range totalAR.length).map (fun index =>
    if index + 1 < totalAR.length then
      Val.smul (1/2)
        (Val.add (totalAR.getD index Val.nan) (totalAR.getD (index + 1) Val.nan))
    else Val.nan)

/-- The averaging loop inlined in `calculateROARatio`. -/
def avgAssetsROALoop (totalAssets : List Val) : List Val :=
  (List.range totalAssets.length).map (fun index =>
    if index + 1 < totalAssets.length then
      Val.smul (1/2)
        (Val.add (totalAssets.getD index Val.nan) (totalAssets.getD (index + 1) Val.nan))
    else Val.nan)

/-- The shared two-period averaging helper as the spec words it:
`avg[i] = (v[i] + v[i+1]) / 2` for `i` in `[0, N-2]`, and `avg[N-1]` is
always the explicit undefined value.  This is the spec side of the
refinement claim about the four inlined loops. -/
def specTwoPeriodAverage (v : List Val) : List Val :=
  (List.range v.length).map (fun i =>
    if i + 1 < v.length then
      Val.div (Val.add (v.getD i Val.nan) (v.getD (i + 1) Val.nan)) (Val.num 2)
    else Val.nan)

/-- `calculateAssetTurnoverRatio`: sales / two-period average of total assets.
The reindexing `pd.Series(avgAssets, index=range(1,N+1))` in the source makes
the average share the sales series index, so the division is positional. -/
def calculateAssetTurnoverRatio (fd : FinancialData) : List Val :=
  seriesDiv fd.getSales (avgAssetsLoop fd.getTotalAssets)

/-- `calculateInventoryTurnoverRatio`: cost of revenue / average inventory. -/
def calculateInventoryTurnoverRatio (fd : FinancialData) : List Val :=
  seriesDiv fd.getCOR (avgInventoryLoop fd.getInventory)

/-- `calculateAccountsReceivableTurnoverRatio`: sales / average receivables. -/
def calculateAccountsReceivableTurnoverRatio (fd : FinancialData) : List Val :=
  seriesDiv fd.getSales (avgReceivablesLoop fd.getNetReceivables)

/-- `calculateROARatio`: net income / average total assets. -/
def calculateROARatio (fd : FinancialData) : List Val :=
  seriesDiv fd.getNetIncome (avgAssetsROALoop fd.getTotalAssets)

/-- `calculateROERatio`: net income / total stockholder equity. -/
def calculateROERatio (fd : FinancialData) : List Val :=
  seriesDiv fd.getNetIncome fd.getTotalStockholderEquity

/-- `calculateROSRatio`: ebit / sales. -/
def calculateROSRatio (fd : FinancialData) : List Val :=
  seriesDiv fd.getEBIT fd.getSales

/-- `calculateNetProfitMarginRatio`: net income / sales. -/
def calculateNetProfitMarginRatio (fd : FinancialData) : List Val :=
  seriesDiv fd.getNetIncome fd.getSales

/-- `calculateGrossProfitMarginRatio`: gross profit / sales. -/
def calculateGrossProfitMarginRatio (fd : FinancialData) : List Val :=
  seriesDiv fd.getGrossProfit fd.getSales

/-- `calculateOperatingProfitMarginRatio`: operating income / sales. -/
def calculateOperatingProfitMarginRatio (fd : FinancialData) : List Val :=
  seriesDiv fd.getOperatingIncomeOrLoss fd.getSales

/-- The 25 ratio functions of the registry in declaration order. -/
def ratioRegistry : List (FinancialData → List Val) :=
  [calculateCashRatio, calculateQuickRatio, calculateCurrentRatio,
   calculateWorkingCapital, calculateCashToWorkingCapitalRatio,
   calculateInventoryToWorkingCapitalRatio, salesToWorkingCapitalRatio,
   salesToCurrentAssetsRatio,
   calculateDebtRatio, calculateEquityRatio, calculateDebtToEquityRatio,
   calculateDebtToIncomeRatio, calculateDebtServiceCoverageRatio,
   calculateCashFlowToDebtRatio, calculateWCToDebtRatio,
   calculateTimesInterestEarned,
   calculateAssetTurnoverRatio, calculateInventoryTurnoverRatio,
   calculateAccountsReceivableTurnoverRatio,
   calculateROARatio, calculateROERatio, calculateROSRatio,
   calculateNetProfitMarginRatio, calculateGrossProfitMarginRatio,
   calculateOperatingProfitMarginRatio]

-- Report assembly

/-- `ROUNDING_PRECISION` from the source. -/
def ROUNDING_PRECISION : ℕ := 3

/-- Floor of a rational as an integer, via floor division of numerator by
denominator. -/
def ratFloor (q : ℚ) : ℤ := Int.fdiv q.num (q.den : ℤ)

/-- Round a rational to the nearest integer, ties to even (numpy/pandas
`round` semantics). -/
def rhe (q : ℚ) : ℤ :=
  let f : ℤ := ratFloor q
  let r : ℚ := q - (f : ℚ)
  if r < 1/2 then f
  else if (1 : ℚ)/2 < r then f + 1
  else if f % 2 = 0 then f else f + 1

/-- `DataFrame.round(ROUNDING_PRECISION)` applied to one cell: rounds finite
values to three decimal places, leaves nulls and infinities alone. -/
def roundVal : Val → Val
  | Val.nan => Val.nan
  | Val.pinf => Val.pinf
  | Val.ninf => Val.ninf
  | Val.num q =>
      Val.num ((rhe (q * 10 ^ ROUNDING_PRECISION) : ℚ) / 10 ^ ROUNDING_PRECISION)

/-- One transposed report row: the ratio name labels the row, and rounding to
the display precision is applied to every cell at assembly time. -/
def roundRow (p : String × List Val) : String × List Val :=
  (p.1, p.2.map roundVal)

/-- `getLiquidityRatios`: join the eight liquidity series in declaration
order, round to display precision, and transpose so ratio names label rows. -/
def getLiquidityRatios (fd : FinancialData) : List (String × List Val) :=
  ([("Cash Ratio", calculateCashRatio fd),
    ("Quick Ratio", calculateQuickRatio fd),
    ("Current Ratio", calculateCurrentRatio fd),
    ("Working Capital (WC)", calculateWorkingCapital fd),
    ("Cash To WC Ratio", calculateCashToWorkingCapitalRatio fd),
    ("Inventory To WC Ratio", calculateInventoryToWorkingCapitalRatio fd),
    ("Sales To WC Ratio", salesToWorkingCapitalRatio fd),
    ("Sales To Current Assets Ratio", salesToCurrentAssetsRatio fd)]).map roundRow

/-- `getSolvencyRatios`: the eight solvency series in declaration order. -/
def getSolvencyRatios (fd : FinancialData) : List (String × List Val) :=
  ([("Debt Ratio", calculateDebtRatio fd),
    ("Equity Ratio", calculateEquityRatio fd),
    ("Debt to Equity Ratio", calculateDebtToEquityRatio fd),
    ("Debt to Income Ratio", calculateDebtToIncomeRatio fd),
    ("Debt Service Coverage Ratio", calculateDebtServiceCoverageRatio fd),
    ("Cash Flow to Debt Ratio", calculateCashFlowToDebtRatio fd),
    ("WC to Debt Ratio", calculateWCToDebtRatio fd),
    ("Times Interest Earned", calculateTimesInterestEarned fd)]).map roundRow

/-- `getEfficiencyRatios`: the three efficiency series in declaration order. -/
def getEfficiencyRatios (fd : FinancialData) : List (String × List Val) :=
  ([("Asset Turnover Ratio", calculateAssetTurnoverRatio fd),
    ("Inventory Turnover Ratio", calculateInventoryTurnoverRatio fd),
    ("Accounts Receivable Turnover Ratio", calculateAccountsReceivableTurnoverRatio fd)]).map
    roundRow

/-- `getProfitabilityRatios`: the six profitability series in declaration
order. -/
def getProfitabilityRatios (fd : FinancialData) : List (String × List Val) :=
  ([("Return on Assets", calculateROARatio fd),
    ("Return on Equity", calculateROERatio fd),
    ("Return on Sales", calculateROSRatio fd),
    ("Net Profit Margin Ratio", calculateNetProfitMarginRatio fd),
    ("Gross Profit Margin Ratio", calculateGrossProfitMarginRatio fd),
    ("Operating Profit Margin Ratio", calculateOperatingProfitMarginRatio fd)]).map roundRow

/-- `createMasterReport`: the four section tables concatenated in the fixed
source order, each under its fixed section title. -/
def createMasterReport (fd : FinancialData) : List (String × List (String × List Val)) :=
  [("Liquidity Ratios", getLiquidityRatios fd),
   ("Solvency Ratios", getSolvencyRatios fd),
   ("Efficiency Ratios", getEfficiencyRatios fd),
   ("Profitability Ratios", getProfitabilityRatios fd)]

-- Raw tables and the fallible record constructor

/-- A raw table cell as produced by `pd.read_html`: a parsed number, a NaN
null, or an unparsed string placeholder such as a "not applicable" token. -/
inductive Cell where
  | numc : ℚ → Cell
  | nanc : Cell
  | strc : String → Cell
deriving DecidableEq

/-- A raw statement table after the transpose in the fetcher: an ordered list
of (column label, column cells) pairs; duplicate labels are possible. -/
def RawTable : Type := List (String × List Cell)

instance : DecidableEq RawTable := by
  unfold RawTable
  infer_instance

/-- All columns of the table carrying the given label, in table order. -/
def getColumns (t : RawTable) (name : String) : List (List Cell) :=
  (t.filter (fun p => p.1 = name)).map Prod.snd

/-- `df[name]` as used for the ordinary fields: a unique matching column is
returned; no matching column raises `KeyError`; a duplicated label yields a
two-dimensional selection on which `pd.to_numeric` fails. -/
def getCol (t : RawTable) (name : String) : Except String (List Cell) :=
  match getColumns t name with
  | [] => Except.error ("KeyError: " ++ name)
  | [c] => Except.ok c
  | _ => Except.error ("to_numeric on a two-dimensional selection: " ++ name)

/-- `pd.to_numeric` with the default `errors="raise"`: numbers pass through,
NaN nulls pass through, and any string cell raises `ValueError`. -/
def to_numeric (col : List Cell) : Except String (List Val) :=
  col.mapM (fun c =>
    match c with
    | Cell.numc q => Except.ok (Val.num q)
    | Cell.nanc => Except.ok Val.nan
    | Cell.strc s => Except.error ("ValueError: Unable to parse string " ++ s))

/-- `pd.to_numeric(df[name])` for one canonical field. -/
def toNumericCol (t : RawTable) (name : String) : Except String (List Val) :=
  (getCol t name).bind to_numeric

/-- The `Net Income` special case in `__init__`: the income statement carries
two columns labelled `Net Income`; the source renames them to
`["NanCol", "Net Income"]` and keeps the second.  Any other multiplicity
raises out of the constructor. -/
def getNetIncomeCol (incStmt : RawTable) : Except String (List Cell) :=
  match getColumns incStmt "Net Income" with
  | [_, c] => Except.ok c
  | _ => Except.error "KeyError: Net Income"

/-- `FinancialData.__init__`: looks every canonical field up in its source
table, in source order, coercing with `pd.to_numeric`.  Any missing column or
unparsable cell raises out of the constructor — nothing degrades to the
undefined marker here. -/
def FinancialData.init (balSht incStmt cfStmt : RawTable) :
    Except String FinancialData := do
  let cce ← toNumericCol balSht "Cash And Cash Equivalents"
  let currLia ← toNumericCol balSht "Total Current Liabilities"
  let currAssets ← toNumericCol balSht "Total Current Assets"
  let shortTermInv ← toNumericCol balSht "Short Term Investments"
  let nr ← toNumericCol balSht "Net Receivables"
  let inventory ← toNumericCol balSht "Inventory"
  let totalAssets ← toNumericCol balSht "Total Assets"
  let totalLia ← toNumericCol balSht "Total Liabilities"
  let totalSE ← toNumericCol balSht "Total Stockholder Equity"
  let sales ← toNumericCol incStmt "Total Revenue"
  let gp ← toNumericCol incStmt "Gross Profit"
  let noil ← toNumericCol incStmt "Operating Income or Loss"
  let ie ← toNumericCol incStmt "Interest Expense"
  let ebit ← toNumericCol incStmt "Earnings Before Interest and Taxes"
  let cor ← toNumericCol incStmt "Cost of Revenue"
  let ni ← (getNetIncomeCol incStmt).bind to_numeric
  let ocf ← toNumericCol cfStmt "Total Cash Flow From Operating Activities"
  return { cce := cce, currLia := currLia, currAssets := currAssets,
           shortTermInv := shortTermInv, nr := nr, inventory := inventory,
           totalAssets := totalAssets, totalLia := totalLia, totalSE := totalSE,
           sales := sales, gp := gp, noil := noil, ie := ie, ebit := ebit,
           cor := cor, ni := ni, ocf := ocf }

-- Concrete fixtures used by witnesses and counterexamples

/-- A record with all seventeen series empty, used as a base for fixtures. -/
def emptyRecord : FinancialData :=
  { cce := [], currLia := [], currAssets := [], shortTermInv := [], nr := [],
    inventory := [], totalAssets := [], totalLia := [], totalSE := [],
    sales := [], gp := [], noil := [], ie := [], ebit := [], cor := [],
    ni := [], ocf := [] }

/-- Fixture for the zero-denominator behavior: one period with cash 1 and
current liabilities 0. -/
def fdZeroDen : FinancialData :=
  { emptyRecord with cce := [Val.num 1], currLia := [Val.num 0] }

/-- Fixture for debt service coverage: operating income 200, interest
expense −40 (interest expense is negative in the source data). -/
def fdDscr : FinancialData :=
  { emptyRecord with noil := [Val.num 200], ie := [Val.num (-40)] }

/-- Fixture for times interest earned: ebit [200,150], interest expense
[−40,−30]. -/
def fdTie : FinancialData :=
  { emptyRecord with ebit := [Val.num 200, Val.num 150],
                     ie := [Val.num (-40), Val.num (-30)] }

/-- Fixture for working capital and current ratio: currentAssets [500,450],
currentLiabilities [250,300]. -/
def fdWc : FinancialData :=
  { emptyRecord with currAssets := [Val.num 500, Val.num 450],
                     currLia := [Val.num 250, Val.num 300] }

/-- Fixture showing that rounding working capital before the cash-to-WC
division would change the result: working capital is 0.0006, which rounds to
0.001 at display precision. -/
def fdRound : FinancialData :=
  { emptyRecord with cce := [Val.num 1],
                     currAssets := [Val.num (6/10000000)],
                     currLia := [Val.num 0] }

/-- A one-period record with every series of length one, used to witness the
length invariant. -/
def fdOnePeriod : FinancialData :=
  { cce := [Val.num 1], currLia := [Val.num 1], currAssets := [Val.num 1],
    shortTermInv := [Val.num 1], nr := [Val.num 1], inventory := [Val.num 1],
    totalAssets := [Val.num 1], totalLia := [Val.num 1], totalSE := [Val.num 1],
    sales := [Val.num 1], gp := [Val.num 1], noil := [Val.num 1],
    ie := [Val.num 1], ebit := [Val.num 1], cor := [Val.num 1],
    ni := [Val.num 1], ocf := [Val.num 1] }

/-- A balance sheet lacking the `Inventory` column but carrying every other
canonical balance-sheet column, one period each. -/
def balShtNoInventory : RawTable :=
  [("Cash And Cash Equivalents", [Cell.numc 10]),
   ("Total Current Liabilities", [Cell.numc 20]),
   ("Total Current Assets", [Cell.numc 30]),
   ("Short Term Investments", [Cell.numc 5]),
   ("Net Receivables", [Cell.numc 7]),
   ("Total Assets", [Cell.numc 100]),
   ("Total Liabilities", [Cell.numc 60]),
   ("Total Stockholder Equity", [Cell.numc 40])]

/-- An income statement with every canonical column, including the duplicated
`Net Income` label found on the source pages. -/
def incStmtFull : RawTable :=
  [("Total Revenue", [Cell.numc 200]),
   ("Gross Profit", [Cell.numc 80]),
   ("Operating Income or Loss", [Cell.numc 50]),
   ("Interest Expense", [Cell.numc (-4)]),
   ("Earnings Before Interest and Taxes", [Cell.numc 55]),
   ("Cost of Revenue", [Cell.numc 120]),
   ("Net Income", [Cell.numc 30]),
   ("Net Income", [Cell.numc 30])]

/-- A cash-flow statement with the one canonical column. -/
def cfStmtFull : RawTable :=
  [("Total Cash Flow From Operating Activities", [Cell.numc 45])]

-- Helper lemmas

theorem getD_zipWith (f : Val → Val → Val) (a b : List Val) (i : ℕ)
    (ha : i < a.length) (hb : i < b.length) :
    (List.zipWith f a b).getD i Val.nan = f (a.getD i Val.nan) (b.getD i Val.nan) := by
  have hl : i < (List.zipWith f a b).length := by
    rw [List.length_zipWith]; omega
  rw [List.getD_eq_getElem _ _ hl, List.getD_eq_getElem _ _ ha,
    List.getD_eq_getElem _ _ hb]
  exact List.getElem_zipWith

theorem getD_range_map (g : ℕ → Val) (n i : ℕ) (h : i < n) :
    ((List.range n).map g).getD i Val.nan = g i := by
  have hl : i < ((List.range n).map g).length := by simpa using h
  rw [List.getD_eq_getElem _ _ hl]
  simp

theorem getD_map_num (v : List ℚ) (i : ℕ) (h : i < v.length) :
    (v.map Val.num).getD i Val.nan = Val.num (v.getD i 0) := by
  have hl : i < (v.map Val.num).length := by simpa using h
  rw [List.getD_eq_getElem _ _ hl, List.getElem_map, List.getD_eq_getElem _ _ h]

theorem smul_half_eq_div_two (x : Val) :
    Val.smul (1/2) x = Val.div x (Val.num 2) := by
  cases x <;> norm_num [Val.smul, Val.div]
  ring

theorem smul1000_sub (a b : Val) :
    Val.sub (Val.smul 1000 a) (Val.smul 1000 b) = Val.smul 1000 (Val.sub a b) := by
  cases a <;> cases b <;> norm_num [Val.smul, Val.sub]
  ring

-- Claim theorems

/-- Claim C1: for every input series v ordered most-recent-first, the
two-period averaging used by the averaged ratios produces
`avg[i] = (v[i] + v[i+1]) / 2` for every i in [0, N-2], `avg[N-1]` is the
explicit undefined value, and in particular
`avg([1000,900,800]) = [950,850,undefined]`. -/
theorem twoPeriodAveraging_spec :
    (∀ (v : List ℚ) (i : ℕ), i + 1 < v.length →
      (avgAssetsLoop (v.map Val.num)).getD i Val.nan
        = Val.num ((v.getD i 0 + v.getD (i + 1) 0) / 2)) ∧
    (∀ v : List ℚ, v ≠ [] →
      (avgAssetsLoop (v.map Val.num)).getD (v.length - 1) Val.nan = Val.nan) ∧
    avgAssetsLoop [Val.num 1000, Val.num 900, Val.num 800]
      = [Val.num 950, Val.num 850, Val.nan] := by
  refine ⟨?_, ?_, ?_⟩
  · intro v i hi
    unfold avgAssetsLoop
    rw [getD_range_map _ _ _ (by simpa using Nat.lt_of_succ_lt hi)]
    simp only [List.length_map]
    rw [if_pos hi, getD_map_num _ _ (Nat.lt_of_succ_lt hi), getD_map_num _ _ hi]
    simp only [Val.add, Val.smul]
    congr 1
    ring
  · intro v hv
    have hn : 0 < v.length := List.length_pos.mpr hv
    unfold avgAssetsLoop
    rw [getD_range_map _ _ _ (by simpa using Nat.sub_lt hn Nat.one_pos)]
    simp only [List.length_map]
    rw [if_neg (by omega)]
  · simp [avgAssetsLoop, List.range, List.range.loop, Val.add, Val.smul, List.getD]
    norm_num

/-- Witness for C1: instantiated at the spec scenario series [1000,900,800]
and position 0, where the average is 950. -/
theorem twoPeriodAveraging_spec_witness :
    (0 : ℕ) + 1 < ([1000, 900, 800] : List ℚ).length ∧
    (avgAssetsLoop (([1000, 900, 800] : List ℚ).map Val.num)).getD 0 Val.nan
      = Val.num ((([1000, 900, 800] : List ℚ).getD 0 0
          + ([1000, 900, 800] : List ℚ).getD (0 + 1) 0) / 2) :=
  ⟨by decide, twoPeriodAveraging_spec.1 [1000, 900, 800] 0 (by decide)⟩

/-- Claim C10: the two-period averaging loops inlined separately in Asset
Turnover, Inventory Turnover, Receivables Turnover, and ROA all compute the
same function of their input stock series: each equals the shared averaging
helper applied to that series. -/
theorem averagingLoops_agree (v : List Val) :
    avgAssetsLoop v = specTwoPeriodAverage v ∧
    avgInventoryLoop v = specTwoPeriodAverage v ∧
    avgReceivablesLoop v = specTwoPeriodAverage v ∧
    avgAssetsROALoop v = specTwoPeriodAverage v := by
  have key : ∀ w : List Val,
      (List.range w.length).map (fun index =>
        if index + 1 < w.length then
          Val.smul (1/2) (Val.add (w.getD index Val.nan) (w.getD (index + 1) Val.nan))
        else Val.nan) = specTwoPeriodAverage w := by
    intro w
    unfold specTwoPeriodAverage
    apply List.map_congr_left
    intro i _
    by_cases h : i + 1 < w.length
    · rw [if_pos h, if_pos h, smul_half_eq_div_two]
    · rw [if_neg h, if_neg h]
  exact ⟨key v, key v, key v, key v⟩

theorem getD_map_val (f : Val → Val) (l : List Val) (i : ℕ) (h : i < l.length) :
    (l.map f).getD i Val.nan = f (l.getD i Val.nan) := by
  have hl : i < (l.map f).length := by simpa using h
  rw [List.getD_eq_getElem _ _ hl, List.getElem_map, List.getD_eq_getElem _ _ h]

/-- Claim C3 counterexample: with cash 1 and current liabilities 0 the cash
ratio cell is positive infinity, not the explicit undefined value, so a zero
denominator does not yield undefined. -/
theorem zeroDenominator_cex :
    calculateCashRatio fdZeroDen = [Val.pinf] ∧ Val.pinf ≠ Val.nan := by
  constructor
  · norm_num [calculateCashRatio, fdZeroDen, emptyRecord, seriesDiv,
      FinancialData.getCashAndCashEquivalents, FinancialData.getCurrentLiabilities,
      Val.div]
  · simp

/-- Claim C3 (amended): a missing or undefined denominator yields the
explicit undefined value at that position only, and no exception is raised;
a zero denominator under a nonzero finite numerator instead yields a signed
infinity (it yields undefined only when the numerator is 0 or itself
undefined).  Each output position is a function of the two operand cells at
that position alone, so every other position and every other ratio is
unchanged; the cited ratio functions are the positional division of their
operand series. -/
theorem denominatorHandling_spec :
    (∀ (a b : List Val) (i : ℕ), i < a.length → i < b.length →
      ((List.zipWith Val.div a b).getD i Val.nan
          = Val.div (a.getD i Val.nan) (b.getD i Val.nan)) ∧
      (b.getD i Val.nan = Val.nan →
        (List.zipWith Val.div a b).getD i Val.nan = Val.nan)) ∧
    (∀ q : ℚ, q ≠ 0 →
      Val.div (Val.num q) (Val.num 0) = if 0 < q then Val.pinf else Val.ninf) ∧
    (∀ fd : FinancialData, calculateCashRatio fd = seriesDiv fd.cce fd.currLia) ∧
    (∀ fd : FinancialData,
      calculateAssetTurnoverRatio fd = seriesDiv fd.sales (avgAssetsLoop fd.totalAssets)) := by
  refine ⟨?_, ?_, fun fd => rfl, fun fd => rfl⟩
  · intro a b i ha hb
    constructor
    · exact getD_zipWith _ _ _ _ ha hb
    · intro hbnan
      rw [getD_zipWith _ _ _ _ ha hb, hbnan]
      cases a.getD i Val.nan <;> rfl
  · intro q hq
    by_cases h : 0 < q
    · rw [if_pos h]
      simp [Val.div, hq, h]
    · rw [if_neg h]
      simp [Val.div, hq, h]

/-- Witness for the amended C3: a one-cell division with an undefined
denominator produces the undefined value. -/
theorem denominatorHandling_spec_witness :
    (0 : ℕ) < ([Val.num 1] : List Val).length ∧
    (0 : ℕ) < ([Val.nan] : List Val).length ∧
    (List.zipWith Val.div [Val.num 1] [Val.nan]).getD 0 Val.nan = Val.nan :=
  ⟨by decide, by decide,
    (denominatorHandling_spec.1 [Val.num 1] [Val.nan] 0 (by decide) (by decide)).2 rfl⟩

/-- Claim C4 counterexample: at operatingIncome 200 and interestExpense −40
the code produces −5, while operatingIncome / |interestExpense| is 5 — the
source divides by the raw interest expense without an absolute value. -/
theorem debtServiceCoverage_cex :
    (calculateDebtServiceCoverageRatio fdDscr).getD 0 Val.nan = Val.num (-5) ∧
    (calculateDebtServiceCoverageRatio fdDscr).getD 0 Val.nan
      ≠ Val.div (fdDscr.noil.getD 0 Val.nan) (Val.abs (fdDscr.ie.getD 0 Val.nan)) := by
  constructor
  · norm_num [calculateDebtServiceCoverageRatio, fdDscr, emptyRecord, seriesDiv,
      FinancialData.getOperatingIncomeOrLoss, FinancialData.getInterestExpense, Val.div]
  · norm_num [calculateDebtServiceCoverageRatio, fdDscr, emptyRecord, seriesDiv,
      FinancialData.getOperatingIncomeOrLoss, FinancialData.getInterestExpense,
      Val.div, Val.abs]

/-- Claim C4 (amended): Debt Service Coverage at each position equals
operatingIncome divided by the raw (negative) interestExpense at that
position; the source takes no absolute value of the denominator. -/
theorem debtServiceCoverage_spec (fd : FinancialData) (i : ℕ)
    (h1 : i < fd.noil.length) (h2 : i < fd.ie.length) :
    (calculateDebtServiceCoverageRatio fd).getD i Val.nan
      = Val.div (fd.noil.getD i Val.nan) (fd.ie.getD i Val.nan) := by
  unfold calculateDebtServiceCoverageRatio seriesDiv
    FinancialData.getOperatingIncomeOrLoss FinancialData.getInterestExpense
  exact getD_zipWith _ _ _ _ h1 h2

/-- Witness for the amended C4 at the concrete fixture. -/
theorem debtServiceCoverage_spec_witness :
    (0 : ℕ) < fdDscr.noil.length ∧ (0 : ℕ) < fdDscr.ie.length ∧
    (calculateDebtServiceCoverageRatio fdDscr).getD 0 Val.nan
      = Val.div (fdDscr.noil.getD 0 Val.nan) (fdDscr.ie.getD 0 Val.nan) :=
  ⟨by decide, by decide, debtServiceCoverage_spec fdDscr 0 (by decide) (by decide)⟩

/-- Claim C5: Times Interest Earned at each position equals ebit divided by
the absolute value of interestExpense at that position; in particular
interestExpense=[-40,-30] with ebit=[200,150] yields [5.0,5.0]. -/
theorem timesInterestEarned_spec (fd : FinancialData) (i : ℕ)
    (h1 : i < fd.ebit.length) (h2 : i < fd.ie.length) :
    ((calculateTimesInterestEarned fd).getD i Val.nan
      = Val.div (fd.ebit.getD i Val.nan) (Val.abs (fd.ie.getD i Val.nan))) ∧
    calculateTimesInterestEarned fdTie = [Val.num 5, Val.num 5] := by
  constructor
  · unfold calculateTimesInterestEarned seriesDiv absSeries
      FinancialData.getEBIT FinancialData.getInterestExpense
    rw [getD_zipWith _ _ _ _ h1 (by simpa using h2), getD_map_val _ _ _ h2]
  · norm_num [calculateTimesInterestEarned, fdTie, emptyRecord, seriesDiv, absSeries,
      FinancialData.getEBIT, FinancialData.getInterestExpense, Val.div, Val.abs,
      abs_of_neg]

/-- Witness for C5 at the spec scenario, position 0. -/
theorem timesInterestEarned_spec_witness :
    (0 : ℕ) < fdTie.ebit.length ∧ (0 : ℕ) < fdTie.ie.length ∧
    (calculateTimesInterestEarned fdTie).getD 0 Val.nan
      = Val.div (fdTie.ebit.getD 0 Val.nan) (Val.abs (fdTie.ie.getD 0 Val.nan)) :=
  ⟨by decide, by decide, (timesInterestEarned_spec fdTie 0 (by decide) (by decide)).1⟩

/-- Claim C6: Working Capital at each position equals 1000 times
(currentAssets − currentLiabilities) at that position and Current Ratio is
currentAssets / currentLiabilities; currentAssets=[500,450] with
currentLiabilities=[250,300] yields WorkingCapital=[250000,150000] and
CurrentRatio=[2.0,1.5]. -/
theorem workingCapital_currentRatio_spec (fd : FinancialData) (i : ℕ)
    (hca : i < fd.currAssets.length) (hcl : i < fd.currLia.length) :
    ((calculateWorkingCapital fd).getD i Val.nan
      = Val.smul 1000 (Val.sub (fd.currAssets.getD i Val.nan) (fd.currLia.getD i Val.nan))) ∧
    ((calculateCurrentRatio fd).getD i Val.nan
      = Val.div (fd.currAssets.getD i Val.nan) (fd.currLia.getD i Val.nan)) ∧
    calculateWorkingCapital fdWc = [Val.num 250000, Val.num 150000] ∧
    calculateCurrentRatio fdWc = [Val.num 2, Val.num (3/2)] := by
  refine ⟨?_, ?_, ?_, ?_⟩
  · unfold calculateWorkingCapital seriesSub smulSeries
      FinancialData.getCurrentAssets FinancialData.getCurrentLiabilities
    rw [getD_zipWith _ _ _ _ (by simpa using hca) (by simpa using hcl),
      getD_map_val _ _ _ hca, getD_map_val _ _ _ hcl, smul1000_sub]
  · unfold calculateCurrentRatio seriesDiv
      FinancialData.getCurrentAssets FinancialData.getCurrentLiabilities
    exact getD_zipWith _ _ _ _ hca hcl
  · norm_num [calculateWorkingCapital, fdWc, emptyRecord, seriesSub, smulSeries,
      FinancialData.getCurrentAssets, FinancialData.getCurrentLiabilities,
      Val.smul, Val.sub]
  · norm_num [calculateCurrentRatio, fdWc, emptyRecord, seriesDiv,
      FinancialData.getCurrentAssets, FinancialData.getCurrentLiabilities, Val.div]

/-- Witness for C6 at the spec scenario, position 0. -/
theorem workingCapital_currentRatio_spec_witness :
    (0 : ℕ) < fdWc.currAssets.length ∧ (0 : ℕ) < fdWc.currLia.length ∧
    (calculateWorkingCapital fdWc).getD 0 Val.nan
      = Val.smul 1000 (Val.sub (fdWc.currAssets.getD 0 Val.nan) (fdWc.currLia.getD 0 Val.nan)) :=
  ⟨by decide, by decide, (workingCapital_currentRatio_spec fdWc 0 (by decide) (by decide)).1⟩

/-- Claim C7: for every valid record and period index of length N, every
ratio function of the registry (including the averaged ratios) returns a
series of length exactly N, never silently shorter. -/
theorem ratioLengths_spec (f : FinancialData → List Val) (hf : f ∈ ratioRegistry)
    (fd : FinancialData) (N : ℕ) (hv : fd.valid N) : (f fd).length = N := by
  obtain ⟨h1, h2, h3, h4, h5, h6, h7, h8, h9, h10, h11, h12, h13, h14, h15, h16, h17⟩ := hv
  unfold ratioRegistry at hf
  simp only [List.mem_cons, List.not_mem_nil, or_false] at hf
  rcases hf with rfl|rfl|rfl|rfl|rfl|rfl|rfl|rfl|rfl|rfl|rfl|rfl|rfl|rfl|rfl|rfl|rfl|rfl|
    rfl|rfl|rfl|rfl|rfl|rfl|rfl <;>
    simp [calculateCashRatio, calculateQuickRatio, calculateCurrentRatio,
      calculateWorkingCapital, calculateCashToWorkingCapitalRatio,
      calculateInventoryToWorkingCapitalRatio, salesToWorkingCapitalRatio,
      salesToCurrentAssetsRatio, calculateDebtRatio, calculateEquityRatio,
      calculateDebtToEquityRatio, calculateDebtToIncomeRatio,
      calculateDebtServiceCoverageRatio, calculateCashFlowToDebtRatio,
      calculateWCToDebtRatio, calculateTimesInterestEarned,
      calculateAssetTurnoverRatio, calculateInventoryTurnoverRatio,
      calculateAccountsReceivableTurnoverRatio, calculateROARatio,
      calculateROERatio, calculateROSRatio, calculateNetProfitMarginRatio,
      calculateGrossProfitMarginRatio, calculateOperatingProfitMarginRatio,
      seriesDiv, seriesAdd, seriesSub, smulSeries, absSeries,
      avgAssetsLoop, avgInventoryLoop, avgReceivablesLoop, avgAssetsROALoop,
      FinancialData.getCashAndCashEquivalents, FinancialData.getCurrentLiabilities,
      FinancialData.getCurrentAssets, FinancialData.getShortTermInvestments,
      FinancialData.getNetReceivables, FinancialData.getInventory,
      FinancialData.getTotalAssets, FinancialData.getTotalLiabilities,
      FinancialData.getTotalStockholderEquity, FinancialData.getSales,
      FinancialData.getGrossProfit, FinancialData.getOperatingIncomeOrLoss,
      FinancialData.getInterestExpense, FinancialData.getOperatingCashFlows,
      FinancialData.getEBIT, FinancialData.getCostOfRevenue, FinancialData.getCOR,
      FinancialData.getNetIncome, List.length_zipWith,
      h1, h2, h3, h4, h5, h6, h7, h8, h9, h10, h11, h12, h13, h14, h15, h16, h17]

/-- Witness for C7: the cash ratio on a concrete one-period record has
length 1. -/
theorem ratioLengths_spec_witness :
    calculateCashRatio ∈ ratioRegistry ∧ fdOnePeriod.valid 1 ∧
    (calculateCashRatio fdOnePeriod).length = 1 := by
  refine ⟨?_, by decide, ?_⟩
  · unfold ratioRegistry
    exact List.mem_cons_self _ _
  · exact ratioLengths_spec calculateCashRatio
      (by unfold ratioRegistry; exact List.mem_cons_self _ _) fdOnePeriod 1 (by decide)

/-- Claim C9: the assembled report lists the four category sections in the
fixed declaration order (Liquidity, Solvency, Efficiency, Profitability) and
the ratios within each category in their fixed declaration order, never
sorted or reordered as a function of the data. -/
theorem reportOrder_spec (fd : FinancialData) :
    (createMasterReport fd).map Prod.fst
      = ["Liquidity Ratios", "Solvency Ratios", "Efficiency Ratios",
         "Profitability Ratios"] ∧
    (getLiquidityRatios fd).map Prod.fst
      = ["Cash Ratio", "Quick Ratio", "Current Ratio", "Working Capital (WC)",
         "Cash To WC Ratio", "Inventory To WC Ratio", "Sales To WC Ratio",
         "Sales To Current Assets Ratio"] ∧
    (getSolvencyRatios fd).map Prod.fst
      = ["Debt Ratio", "Equity Ratio", "Debt to Equity Ratio",
         "Debt to Income Ratio", "Debt Service Coverage Ratio",
         "Cash Flow to Debt Ratio", "WC to Debt Ratio", "Times Interest Earned"] ∧
    (getEfficiencyRatios fd).map Prod.fst
      = ["Asset Turnover Ratio", "Inventory Turnover Ratio",
         "Accounts Receivable Turnover Ratio"] ∧
    (getProfitabilityRatios fd).map Prod.fst
      = ["Return on Assets", "Return on Equity", "Return on Sales",
         "Net Profit Margin Ratio", "Gross Profit Margin Ratio",
         "Operating Profit Margin Ratio"] :=
  ⟨rfl, rfl, rfl, rfl, rfl⟩

/-- Claim C8: Cash-to-WC (like every ratio consuming Working Capital) is
computed from the unrounded Working Capital output; rounding to 3 decimal
places happens only when assembling the rendered tables.  The last conjunct
exhibits a record on which consuming the rounded value instead would change
the result, so the absence of intermediate rounding is observable. -/
theorem roundingAtPresentation_spec :
    (∀ fd : FinancialData, calculateCashToWorkingCapitalRatio fd
        = seriesDiv (smulSeries 1000 fd.cce) (calculateWorkingCapital fd)) ∧
    (∀ fd : FinancialData, getLiquidityRatios fd
        = [("Cash Ratio", (calculateCashRatio fd).map roundVal),
           ("Quick Ratio", (calculateQuickRatio fd).map roundVal),
           ("Current Ratio", (calculateCurrentRatio fd).map roundVal),
           ("Working Capital (WC)", (calculateWorkingCapital fd).map roundVal),
           ("Cash To WC Ratio", (calculateCashToWorkingCapitalRatio fd).map roundVal),
           ("Inventory To WC Ratio",
             (calculateInventoryToWorkingCapitalRatio fd).map roundVal),
           ("Sales To WC Ratio", (salesToWorkingCapitalRatio fd).map roundVal),
           ("Sales To Current Assets Ratio",
             (salesToCurrentAssetsRatio fd).map roundVal)]) ∧
    calculateCashToWorkingCapitalRatio fdRound
      ≠ seriesDiv (smulSeries 1000 fdRound.cce)
          ((calculateWorkingCapital fdRound).map roundVal) := by
  refine ⟨fun fd => rfl, fun fd => rfl, ?_⟩
  have hwc : calculateWorkingCapital fdRound = [Val.num (3/5000)] := by
    norm_num [calculateWorkingCapital, fdRound, emptyRecord, seriesSub, smulSeries,
      FinancialData.getCurrentAssets, FinancialData.getCurrentLiabilities,
      Val.smul, Val.sub]
  have hlhs : calculateCashToWorkingCapitalRatio fdRound = [Val.num (5000000/3)] := by
    show seriesDiv (smulSeries 1000 fdRound.getCashAndCashEquivalents)
        (calculateWorkingCapital fdRound) = _
    rw [hwc]
    norm_num [fdRound, emptyRecord, seriesDiv, smulSeries,
      FinancialData.getCashAndCashEquivalents, Val.smul, Val.div]
  have hrv : roundVal (Val.num (3/5000)) = Val.num (1/1000) := by
    norm_num [roundVal, rhe, ratFloor, ROUNDING_PRECISION, Int.fdiv]
  rw [hlhs, hwc]
  simp only [List.map_cons, List.map_nil, hrv]
  norm_num [fdRound, emptyRecord, seriesDiv, smulSeries,
    FinancialData.getCashAndCashEquivalents, Val.smul, Val.div]

theorem bindErrorOf {α β : Type} (e : Except String α) (f : α → Except String β)
    (h : ∀ a, e = Except.ok a → ∃ m, f a = Except.error m) :
    ∃ m, e >>= f = Except.error m := by
  cases e with
  | error m => exact ⟨m, rfl⟩
  | ok a => exact h a rfl

/-- Claim C2 (amended): when a canonical field's source column is absent —
here the balance sheet's Inventory column — the `KeyError` raises out of the
record constructor: no field degrades to the undefined value and no ratio,
dependent or independent, is computed. -/
theorem missingInventory_aborts (balSht incStmt cfStmt : RawTable)
    (h : getColumns balSht "Inventory" = []) :
    ∃ msg, FinancialData.init balSht incStmt cfStmt = Except.error msg := by
  unfold FinancialData.init
  apply bindErrorOf; intro a1 _
  apply bindErrorOf; intro a2 _
  apply bindErrorOf; intro a3 _
  apply bindErrorOf; intro a4 _
  apply bindErrorOf; intro a5 _
  have hinv : toNumericCol balSht "Inventory"
      = Except.error ("KeyError: " ++ "Inventory") := by
    unfold toNumericCol getCol
    rw [h]
    rfl
  rw [hinv]
  exact ⟨_, rfl⟩

/-- Claim C2 counterexample: on a concrete run whose balance sheet lacks the
Inventory column (every other canonical column present), the constructor
returns the KeyError instead of a degraded record, so no ratio — not even an
independent one — computes. -/
theorem missingInventory_cex :
    FinancialData.init balShtNoInventory incStmtFull cfStmtFull
      = Except.error "KeyError: Inventory" := by
  rfl

/-- Witness for the amended C2 at the concrete run. -/
theorem missingInventory_aborts_witness :
    getColumns balShtNoInventory "Inventory" = [] ∧
    ∃ msg, FinancialData.init balShtNoInventory incStmtFull cfStmtFull
      = Except.error msg :=
  ⟨rfl, missingInventory_aborts balShtNoInventory incStmtFull cfStmtFull rfl⟩
